import Mathlib

/-!
Verification of the job-application tracking backend
(`backend/job_application`): resume-file validation, candidate
registration, the status-transition engine with its history ledger, and
the notification dispatcher.

The Python source is shallowly embedded: uploaded files are byte lists
with an explicit stream position, the database is explicit state
(candidates, status history, notification logs), and each Python
function that the properties mention becomes a Lean function of the same
name operating on that state.
-/

namespace JobApp

/-! ## Byte-level helpers -/

/-- Python `startswith`: is `pre` an initial segment of `l`? -/
def pyStartswith {α : Type} [DecidableEq α] : List α → List α → Bool
  | [], _ => true
  | _ :: _, [] => false
  | x :: xs, y :: ys => x = y && pyStartswith xs ys

/-- `bytes.startswith` on byte lists. -/
def bytes_startswith (pre l : List Nat) : Bool := pyStartswith pre l

/-! ## String helpers (Python string semantics over `List Char`) -/

/-- Python `str.split('.')`: split at every dot, keeping empty pieces. -/
def splitDot : List Char → List (List Char)
  | [] => [[]]
  | x :: xs =>
    match splitDot xs with
    | [] => if x = '.' then [[], []] else [[x]]
    | h :: t => if x = '.' then [] :: h :: t else (x :: h) :: t

/-- Python `str.lower` over the characters (`Char.toLower` folds the
ASCII range; Python's `str.lower` is Unicode-wide, which the validated
ASCII extensions never need). -/
def lowerChars (cs : List Char) : List Char := cs.map Char.toLower

/-- Python `str.lower` on strings. -/
def pyLower (s : String) : String := String.mk (lowerChars s.toList)

/-- Python `str.strip`: drop leading and trailing whitespace. -/
def pyStrip (s : String) : String :=
  String.mk (((s.toList.dropWhile Char.isWhitespace).reverse.dropWhile
    Char.isWhitespace).reverse)

/-- Does `pat` occur as a contiguous run inside `s`? -/
def charsContains (pat : List Char) : List Char → Bool
  | [] => pyStartswith pat []
  | x :: rest => pyStartswith pat (x :: rest) || charsContains pat rest

/-- Python `pattern in s` for strings (substring containment). -/
def pyContains (s pat : String) : Bool :=
  charsContains pat.toList s.toList

/-! ## Uploaded files

A Django `UploadedFile` as the validator sees it: a claimed filename,
the reported size, the byte content, and the current stream position.
-/

structure UploadedFile where
  name : String
  size : Nat
  content : List Nat
  pos : Nat
deriving DecidableEq, Repr

/-- Python `file.seek(n)`. -/
def UploadedFile.seek (f : UploadedFile) (n : Nat) : UploadedFile :=
  { f with pos := n }

/-- Python `file.read(n)`: the bytes delivered and the advanced stream. -/
def UploadedFile.read (f : UploadedFile) (n : Nat) :
    List Nat × UploadedFile :=
  let bytes := (f.content.drop f.pos).take n
  (bytes, { f with pos := f.pos + bytes.length })

/-! ## `validators.py` -/

/-- `MAX_FILE_SIZE = 5 * 1024 * 1024` -/
def MAX_FILE_SIZE : Nat := 5 * 1024 * 1024

/-- `ALLOWED_MIME_TYPES`: detected MIME type → expected extensions. -/
def ALLOWED_MIME_TYPES : List (String × List String) :=
  [("application/pdf", ["pdf"]),
   ("application/vnd.openxmlformats-officedocument.wordprocessingml.document",
     ["docx"]),
   ("application/msword", ["doc"])]

/-- `b'%PDF'` -/
def PDF_MAGIC : List Nat := [0x25, 0x50, 0x44, 0x46]

/-- `b'PK\x03\x04'` (DOCX files are ZIP archives) -/
def ZIP_MAGIC : List Nat := [0x50, 0x4B, 0x03, 0x04]

/-- `b'\xd0\xcf\x11\xe0\xa1\xb1\x1a\xe1'` (legacy DOC format) -/
def DOC_MAGIC : List Nat := [0xd0, 0xcf, 0x11, 0xe0, 0xa1, 0xb1, 0x1a, 0xe1]

/-- `FILE_SIGNATURES`, in the Python dict's insertion order. -/
def FILE_SIGNATURES : List (List Nat × String) :=
  [(PDF_MAGIC, "pdf"), (ZIP_MAGIC, "docx"), (DOC_MAGIC, "doc")]

/-- Modelled from the spec: the external `magic.from_buffer(buf, mime=True)`
collaborator (libmagic, not part of this repository) "determine[s the]
actual MIME type via binary content inspection": it reports the PDF,
DOCX or legacy-DOC MIME type exactly when the buffer opens with that
family's magic sequence, and an unrecognized type otherwise. -/
def magic_from_buffer (buf : List Nat) : String :=
  if bytes_startswith PDF_MAGIC buf then "application/pdf"
  else if bytes_startswith ZIP_MAGIC buf then
    "application/vnd.openxmlformats-officedocument.wordprocessingml.document"
  else if bytes_startswith DOC_MAGIC buf then "application/msword"
  else "application/octet-stream"

/-- `filename.split('.')[-1] if '.' in filename else ''`
(`'.' in filename` is rendered as the split producing at least two
pieces, which holds exactly when the string has a dot). -/
def file_extension_of (filename : String) : String :=
  let parts := splitDot filename.toList
  if 2 ≤ parts.length then String.mk (parts.getLastD []) else ""

/-- The distinct rejection reasons of `validate_resume_file`, one per
`raise ValidationError` site. -/
inductive FileValidationError where
  /-- "No file provided." -/
  | noFile
  /-- "File size exceeds maximum limit ..." -/
  | sizeExceeded
  /-- "File must have a valid filename." -/
  | noFilename
  /-- "Invalid file extension ..." -/
  | invalidExtension
  /-- "Invalid file type ... Detected type: ..." -/
  | invalidMimeType
  /-- "File extension ... does not match file content type." -/
  | extensionMismatch
  /-- "File appears to be corrupted or not a valid PDF/DOCX file." -/
  | corruptedSignature
deriving DecidableEq, Repr

/-- The signature loop: scan `FILE_SIGNATURES` in order, and on the first
signature that prefixes the header decide validity (the loop `break`s
after the first match). -/
def signature_valid_for (file_header : List Nat) (file_extension : String) :
    Bool :=
  match FILE_SIGNATURES.find? (fun p => bytes_startswith p.1 file_header) with
  | none => false
  | some p =>
    ["pdf", "docx", "doc"].contains p.2 &&
      ["pdf", "docx", "doc"].contains file_extension

/-- `validate_resume_file` from `validators.py`.

`if not file:` uses Django's `File.__bool__`, which is `bool(self.name)`,
so a file whose name is empty is rejected there as "No file provided.".
The `try/except` arms around the MIME and signature blocks only catch
errors of the reads themselves, which cannot fail in this model; the
deliberate `ValidationError`s are re-raised unchanged, so they appear
here as the corresponding error values. -/
def validate_resume_file (file : UploadedFile) :
    Except FileValidationError UploadedFile :=
  if file.name = "" then .error .noFile
  else if MAX_FILE_SIZE < file.size then .error .sizeExceeded
  else
    let filename := pyLower file.name
    if filename = "" then .error .noFilename
    else
      let file_extension := file_extension_of filename
      if ¬ ["pdf", "docx", "doc"].contains file_extension then
        .error .invalidExtension
      else
        let f1 := file.seek 0
        let r1 := f1.read 1024
        let f2 := r1.2.seek 0
        let mime_type := magic_from_buffer r1.1
        match ALLOWED_MIME_TYPES.lookup mime_type with
        | none => .error .invalidMimeType
        | some expected_extensions =>
          if ¬ expected_extensions.contains file_extension then
            .error .extensionMismatch
          else
            let f3 := f2.seek 0
            let r2 := f3.read 8
            let f4 := r2.2.seek 0
            if ¬ signature_valid_for r2.1 file_extension then
              .error .corruptedSignature
            else .ok f4

/-- Whether a validation result is an acceptance. -/
def isAccepted (r : Except FileValidationError UploadedFile) : Bool :=
  match r with
  | .ok _ => true
  | .error _ => false

/-- The rejection reasons of `validate_file_content_safety`. -/
inductive SafetyError where
  /-- "Filename contains potentially unsafe characters or patterns." -/
  | unsafeFilename
  /-- "File appears to be empty or too small to be a valid resume." -/
  | tooSmall
deriving DecidableEq, Repr

/-- `suspicious_patterns` from `validate_file_content_safety`. -/
def suspicious_patterns : List String :=
  ["../", "..\\", ".exe", ".bat", ".cmd", ".scr", ".vbs",
   "<script", "javascript:", "data:", "vbscript:"]

/-- `validate_file_content_safety` from `validators.py`: reject
path-traversal / executable filename patterns and files under 100
bytes. -/
def validate_file_content_safety (file : UploadedFile) :
    Except SafetyError UploadedFile :=
  let f1 := file.seek 0
  let filename_lower := pyLower file.name
  if suspicious_patterns.any (fun p => pyContains filename_lower p) then
    .error .unsafeFilename
  else if file.size < 100 then .error .tooSmall
  else .ok (f1.seek 0)

/-! ## Data model (`models.py`) -/

/-- `Department` choices. -/
inductive Department where
  | IT
  | HR
  | FINANCE
deriving DecidableEq, Repr

/-- `ApplicationStatus` choices. -/
inductive ApplicationStatus where
  | SUBMITTED
  | UNDER_REVIEW
  | INTERVIEW_SCHEDULED
  | REJECTED
  | ACCEPTED
deriving DecidableEq, Repr

/-- A calendar date as Python's `datetime.date` triple. -/
structure SimpleDate where
  year : Int
  month : Nat
  day : Nat
deriving DecidableEq, Repr

/-- Python tuple comparison `(a1, a2) < (b1, b2)` (lexicographic). -/
def pairLt (a b : Nat × Nat) : Bool :=
  a.1 < b.1 || (a.1 = b.1 && a.2 < b.2)

/-- The age computation shared by `Candidate.clean` and the serializers:
`today.year - dob.year - ((today.month, today.day) < (dob.month, dob.day))`. -/
def calcAge (today dob : SimpleDate) : Int :=
  today.year - dob.year -
    (if pairLt (today.month, today.day) (dob.month, dob.day) then 1 else 0)

/-- A persisted `Candidate` row (timestamps are not modelled; the stored
resume is kept as the uploaded file's name). -/
structure Candidate where
  id : Nat
  full_name : String
  email : String
  phone_number : String
  date_of_birth : SimpleDate
  years_of_experience : Nat
  department : Department
  resume_name : String
  status : ApplicationStatus
deriving DecidableEq, Repr

/-- A persisted `StatusHistory` row. Creation order stands in for
`changed_at`: rows are appended, so later rows are newer. -/
structure StatusHistoryRow where
  id : Nat
  candidate_id : Nat
  previous_status : Option ApplicationStatus
  new_status : ApplicationStatus
  comments : String
  changed_by : String
deriving DecidableEq, Repr

/-- A persisted `NotificationLog` row. -/
structure NotificationLogRow where
  candidate_id : Nat
  status_change_id : Nat
  notification_type : String
  success : Bool
  error_message : String
deriving DecidableEq, Repr

/-- The database state: the three tables plus fresh-id counters. -/
structure Db where
  candidates : List Candidate
  history : List StatusHistoryRow
  notifications : List NotificationLogRow
  nextCandidateId : Nat
  nextHistoryId : Nat
deriving DecidableEq, Repr

/-- `Candidate.objects.get(id=cid)` (as an `Option`). -/
def findCandidate (db : Db) (cid : Nat) : Option Candidate :=
  db.candidates.find? (fun c => c.id == cid)

/-- `candidate.save()` on an existing row: replace the row with the same
primary key. -/
def saveCandidate (db : Db) (c : Candidate) : Db :=
  { db with candidates := db.candidates.map (fun x => if x.id = c.id then c else x) }

/-- History rows of one candidate, oldest first (the newest is the last;
`StatusHistory.Meta.ordering` merely presents them newest-first). -/
def historyFor (db : Db) (cid : Nat) : List StatusHistoryRow :=
  db.history.filter (fun h => h.candidate_id == cid)

/-! ## `notifications.py` -/

/-- `NotificationService.send_status_update_notification`.

The try block composes the message and calls `_mock_send_notification`;
`sendRaises = some msg` means that send path raises an exception whose
`str` is `msg`. On success a `NotificationLog` with `success=True` is
created and `True` returned; on an exception a `NotificationLog` with
`success=False` and the exception text is created and `False` returned.
The function never raises to its caller. -/
def send_status_update_notification (sendRaises : Option String) (db : Db)
    (candidate : Candidate) (status_history : StatusHistoryRow) : Bool × Db :=
  match sendRaises with
  | none =>
    (true, { db with notifications := db.notifications ++
      [{ candidate_id := candidate.id, status_change_id := status_history.id,
         notification_type := "status_update", success := true,
         error_message := "" }] })
  | some error_msg =>
    (false, { db with notifications := db.notifications ++
      [{ candidate_id := candidate.id, status_change_id := status_history.id,
         notification_type := "status_update", success := false,
         error_message := error_msg }] })

/-! ## `status_update_serializer.py` -/

/-- The validated payload of a `StatusUpdateSerializer` request
(`comments` defaults to `""`, `changed_by` to `"admin"`). -/
structure StatusUpdateRequest where
  status : ApplicationStatus
  comments : String := ""
  changed_by : String := "admin"
deriving DecidableEq, Repr

/-- `StatusUpdateSerializer.validate_status`: the requested status must
differ from the candidate's current status. -/
def validate_status (candidate : Candidate) (value : ApplicationStatus) :
    Bool :=
  ¬ candidate.status = value

/-- `StatusUpdateSerializer.is_valid()`: the `status` choice is already
well-typed here; the declared field limits (`comments` at most 1000
characters, `changed_by` at most 255) and `validate_status` must all
hold. -/
def status_update_serializer_valid (candidate : Candidate)
    (req : StatusUpdateRequest) : Bool :=
  req.comments.length ≤ 1000 && req.changed_by.length ≤ 255 &&
    validate_status candidate req.status

/-- `StatusUpdateSerializer.update_status`: set the new status, save the
candidate, create the history row, then attempt the notification (whose
failure is swallowed by the service and by the serializer's own
`try/except`). Returns `(candidate, status_history)` with the updated
database. -/
def update_status (sendRaises : Option String) (db : Db)
    (candidate : Candidate) (req : StatusUpdateRequest) :
    (Candidate × StatusHistoryRow) × Db :=
  let new_status := req.status
  let previous_status := candidate.status
  let candidate' := { candidate with status := new_status }
  let db1 := saveCandidate db candidate'
  let status_history : StatusHistoryRow :=
    { id := db1.nextHistoryId, candidate_id := candidate.id,
      previous_status := some previous_status, new_status := new_status,
      comments := req.comments, changed_by := req.changed_by }
  let db2 := { db1 with
    history := db1.history ++ [status_history],
    nextHistoryId := db1.nextHistoryId + 1 }
  let db3 := (send_status_update_notification sendRaises db2 candidate'
    status_history).2
  ((candidate', status_history), db3)

/-! ## `views/admin_status_update.py` -/

/-- Outcome of `AdminStatusUpdateView.patch`. -/
inductive PatchOutcome where
  /-- 200: `candidate_id`, `previous_status`, `new_status` of the response. -/
  | ok (candidate_id : Nat) (previous_status : Option ApplicationStatus)
      (new_status : ApplicationStatus)
  /-- 400: serializer validation failed. -/
  | validationFailed
  /-- 404: unknown candidate id. -/
  | notFound
deriving DecidableEq, Repr

/-- `AdminStatusUpdateView.patch`: look the candidate up, validate the
requested transition, and on success run `update_status` inside
`transaction.atomic`. -/
def admin_status_update (sendRaises : Option String) (db : Db)
    (candidate_id : Nat) (req : StatusUpdateRequest) : PatchOutcome × Db :=
  match findCandidate db candidate_id with
  | none => (.notFound, db)
  | some candidate =>
    if ¬ status_update_serializer_valid candidate req then
      (.validationFailed, db)
    else
      let r := update_status sendRaises db candidate req
      (.ok r.1.1.id r.1.2.previous_status r.1.2.new_status, r.2)

/-- Run a sequence of transition requests against one candidate through
the patch endpoint; besides the final database, count the successful
transitions. -/
def runTransitions (cid : Nat) (db : Db) :
    List (Option String × StatusUpdateRequest) → Db × Nat
  | [] => (db, 0)
  | (sendRaises, req) :: rest =>
    let r := admin_status_update sendRaises db cid req
    let rest' := runTransitions cid r.2 rest
    (rest'.1, (match r.1 with | .ok _ _ _ => 1 | _ => 0) + rest'.2)

/-! ## `candidate_registration_serializer.py` -/

/-- Django's `FileExtensionValidator`: the extension is
`Path(value.name).suffix[1:].lower()` and must be in `allowed`.
`pathlib` takes the text after the last dot of the (already
basename-sanitized) name, except when that dot is the first character or
the name ends with it, in which case the suffix is empty. -/
def django_extension (name : String) : String :=
  let cs := name.toList
  let parts := splitDot cs
  let lastPart := parts.getLastD []
  if 2 ≤ parts.length ∧ lastPart ≠ [] ∧ lastPart.length + 1 < cs.length then
    String.mk (lowerChars lastPart)
  else ""

/-- `FileExtensionValidator(allowed_extensions=allowed)` accepts. -/
def django_ext_validator (allowed : List String) (name : String) : Bool :=
  allowed.contains (django_extension name)

/-- The `resume` field declaration of `CandidateRegistrationSerializer`:
`FileExtensionValidator(allowed_extensions=['pdf', 'docx'])` followed by
`validate_resume_file`. -/
def resume_field_ok (f : UploadedFile) : Bool :=
  django_ext_validator ["pdf", "docx"] f.name &&
    isAccepted (validate_resume_file f)

/-- `validate_full_name`: stripped, 2–255 characters, at least one
letter (`Char.isAlpha` reads Python's Unicode-wide `str.isalpha` over
the ASCII letters). -/
def validate_full_name_ok (value : String) : Bool :=
  let v := pyStrip value
  if v.length < 2 then false
  else if 255 < v.length then false
  else if ¬ v.toList.any Char.isAlpha then false
  else true

/-- `validate_email`: stripped and lower-cased, unique among existing
candidates, at most 254 characters, not a suspicious domain. (The DRF
`EmailField` format check is an external collaborator and not part of
the serializer body.) -/
def validate_email_ok (db : Db) (value : String) : Bool :=
  let v := pyLower (pyStrip value)
  if db.candidates.any (fun c => c.email == v) then false
  else if 254 < v.length then false
  else
    let domain :=
      if pyContains v "@" then
        String.mk ((splitAt v.toList).getLastD [])
      else ""
    ¬ ["example.com", "test.com", "localhost"].contains domain
where
  /-- Python `value.split('@')` (same splitting as `splitDot`, at `'@'`). -/
  splitAt (cs : List Char) : List (List Char) :=
    match cs with
    | [] => [[]]
    | x :: xs =>
      match splitAt xs with
      | [] => if x = '@' then [[], []] else [[x]]
      | h :: t => if x = '@' then [] :: h :: t else (x :: h) :: t

/-- `validate_phone_number`: within the model field's `max_length=20`
(enforced by the generated serializer field), stripped, unique, and
7–15 digits once separators are removed. -/
def validate_phone_number_ok (db : Db) (value : String) : Bool :=
  let v := pyStrip value
  if 20 < v.length then false
  else if db.candidates.any (fun c => c.phone_number == v) then false
  else
    let phone_digits := (v.toList.filter Char.isDigit).length
    if phone_digits < 7 then false
    else if 15 < phone_digits then false
    else true

/-- `validate_years_of_experience`: between 0 and 50 (the lower bound is
vacuous for a `PositiveIntegerField`). -/
def validate_years_of_experience_ok (value : Nat) : Bool :=
  if 50 < value then false else true

/-- The serializer's cross-field `validate`: the derived age must lie in
[0, 120], and claimed experience must not exceed `max(0, age - 16)`. -/
def cross_field_ok (today : SimpleDate) (years_exp : Nat)
    (date_of_birth : SimpleDate) : Bool :=
  let age := calcAge today date_of_birth
  if age < 0 ∨ 120 < age then false
  else if 0 < years_exp then
    decide ((years_exp : Int) ≤ max 0 (age - 16))
  else true

/-- The raw field payload of a registration request. -/
structure RegistrationInput where
  full_name : String
  email : String
  phone_number : String
  date_of_birth : SimpleDate
  years_of_experience : Nat
  department : Department
  resume : UploadedFile
deriving DecidableEq, Repr

/-- `CandidateRegistrationSerializer.is_valid()`: every field validator
plus the cross-field check succeeds. -/
def serializer_valid (today : SimpleDate) (db : Db)
    (input : RegistrationInput) : Bool :=
  validate_full_name_ok input.full_name &&
  validate_email_ok db input.email &&
  validate_phone_number_ok db input.phone_number &&
  validate_years_of_experience_ok input.years_of_experience &&
  resume_field_ok input.resume &&
  cross_field_ok today input.years_of_experience input.date_of_birth

/-- `Candidate.clean`: the candidate must be at least 16 years old. -/
def candidate_clean_ok (today dob : SimpleDate) : Bool :=
  ¬ calcAge today dob < 16

/-- Outcome of `CandidateRegistrationView.post`. -/
inductive RegOutcome where
  /-- 201: registration successful, with the new candidate id. -/
  | created (candidate_id : Nat)
  /-- 400: serializer validation failed. -/
  | validationError
  /-- 500: an exception escaped `serializer.save()` (in particular the
  `ValidationError` that `Candidate.clean` raises inside
  `Candidate.save`); `transaction.atomic` rolls everything back. -/
  | serverError
deriving DecidableEq, Repr

def RegOutcome.isCreated : RegOutcome → Bool
  | .created _ => true
  | _ => false

/-- `CandidateRegistrationView.post`: validate through the serializer,
then `serializer.save()` inside `transaction.atomic`. Saving first
persists the candidate — `Candidate.save` runs `full_clean`, whose age
check may raise, which the view reports as a 500 with nothing persisted
— and then creates the initial system-authored SUBMITTED history row. -/
def register (today : SimpleDate) (db : Db) (input : RegistrationInput) :
    RegOutcome × Db :=
  if ¬ serializer_valid today db input then (.validationError, db)
  else if ¬ candidate_clean_ok today input.date_of_birth then
    (.serverError, db)
  else
    let cand : Candidate :=
      { id := db.nextCandidateId,
        full_name := pyStrip input.full_name,
        email := pyLower (pyStrip input.email),
        phone_number := pyStrip input.phone_number,
        date_of_birth := input.date_of_birth,
        years_of_experience := input.years_of_experience,
        department := input.department,
        resume_name := input.resume.name,
        status := .SUBMITTED }
    let db1 := { db with
      candidates := db.candidates ++ [cand],
      nextCandidateId := db.nextCandidateId + 1 }
    let initial : StatusHistoryRow :=
      { id := db1.nextHistoryId, candidate_id := cand.id,
        previous_status := none, new_status := .SUBMITTED,
        comments := "Initial application submitted",
        changed_by := "system" }
    (.created cand.id, { db1 with
      history := db1.history ++ [initial],
      nextHistoryId := db1.nextHistoryId + 1 })

/-! ## The claim's reading of "extension" and concrete fixtures -/

/-- The lower-cased suffix after the last dot of a filename (empty when
the name has no dot) — the notion of "extension" the properties use. -/
def extension_after_last_dot (name : String) : String :=
  let parts := splitDot name.toList
  if 2 ≤ parts.length then String.mk (lowerChars (parts.getLastD [])) else ""

/-- A well-formed 50-byte PDF upload. -/
def pdfFile : UploadedFile :=
  { name := "x.pdf", size := 50,
    content := PDF_MAGIC ++ [0x2D, 0x31, 0x2E, 0x34, 0x0A], pos := 0 }

/-- A file claiming to be a PDF whose bytes open with the ZIP header. -/
def zipPdfFile : UploadedFile :=
  { name := "x.pdf", size := 50, content := ZIP_MAGIC ++ [0x01, 0x02],
    pos := 0 }

/-- A PDF upload whose reported size is exactly the 5 MiB limit. -/
def maxSizeFile : UploadedFile := { pdfFile with size := MAX_FILE_SIZE }

/-- A PDF upload one byte over the 5 MiB limit. -/
def overSizeFile : UploadedFile := { pdfFile with size := MAX_FILE_SIZE + 1 }

/-- A legacy DOC upload: `.doc` name over compound-document bytes. -/
def docFile : UploadedFile :=
  { name := "x.doc", size := 200, content := DOC_MAGIC ++ [0x00, 0x00],
    pos := 0 }

/-- An empty-named oversized upload. -/
def unnamedBigFile : UploadedFile :=
  { name := "", size := MAX_FILE_SIZE + 5, content := PDF_MAGIC, pos := 0 }

/-- A database with no rows. -/
def emptyDb : Db := { candidates := [], history := [], notifications := [],
                      nextCandidateId := 0, nextHistoryId := 0 }

/-- A reference "today" for the date-dependent checks. -/
def t0 : SimpleDate := ⟨2026, 10, 12⟩

/-- A registration payload whose derived age at `t0` is exactly 16. -/
def input16 : RegistrationInput :=
  { full_name := "John Doe", email := "jdoe@mail.com",
    phone_number := "1234567", date_of_birth := ⟨2010, 10, 12⟩,
    years_of_experience := 0, department := .IT, resume := pdfFile }

/-- A registration payload whose derived age at `t0` is 11. -/
def youngInput : RegistrationInput :=
  { input16 with date_of_birth := ⟨2015, 1, 1⟩ }

/-- `input16` with the legacy DOC resume instead of the PDF. -/
def docInput : RegistrationInput := { input16 with resume := docFile }

/-- A persisted candidate in the SUBMITTED state. -/
def cand0 : Candidate :=
  { id := 0, full_name := "John Doe", email := "jdoe@mail.com",
    phone_number := "1234567", date_of_birth := ⟨2010, 10, 12⟩,
    years_of_experience := 0, department := .IT, resume_name := "x.pdf",
    status := .SUBMITTED }

/-- A database holding just `cand0` and its initial history row. -/
def db0 : Db :=
  { candidates := [cand0],
    history := [{ id := 0, candidate_id := 0, previous_status := none,
                  new_status := .SUBMITTED,
                  comments := "Initial application submitted",
                  changed_by := "system" }],
    notifications := [], nextCandidateId := 1, nextHistoryId := 1 }

/-- A transition request to UNDER_REVIEW. -/
def reqUnderReview : StatusUpdateRequest :=
  { status := .UNDER_REVIEW, comments := "looks good",
    changed_by := "recruiter1" }

/-- A transition request to the state `cand0` is already in. -/
def reqSameStatus : StatusUpdateRequest := { status := .SUBMITTED }

/-- What a successful transition with a failing send must leave behind
(used to state the notification-isolation property): the 200 response
carries the transition, the candidate row holds the new status, the
history row is persisted, and a failed `NotificationLog` row referencing
it records the exception text. -/
def transitionWithFailedSendPost (msg : String) (db : Db) (cid : Nat)
    (c : Candidate) (req : StatusUpdateRequest) : Prop :=
  (admin_status_update (some msg) db cid req).1 =
      .ok c.id (some c.status) req.status
  ∧ findCandidate (admin_status_update (some msg) db cid req).2 cid =
      some { c with status := req.status }
  ∧ (admin_status_update (some msg) db cid req).2.history =
      db.history ++
        [{ id := db.nextHistoryId, candidate_id := c.id,
           previous_status := some c.status, new_status := req.status,
           comments := req.comments, changed_by := req.changed_by }]
  ∧ (admin_status_update (some msg) db cid req).2.notifications =
      db.notifications ++
        [{ candidate_id := c.id, status_change_id := db.nextHistoryId,
           notification_type := "status_update", success := false,
           error_message := msg }]

/-- The history-ledger invariant after a run of transitions (used to
state the N+1 property): the candidate is found, its history is
nonempty with exactly `n` rows, and the newest row's `new_status` is the
candidate's current status. -/
def historyLedgerPost (db : Db) (cid n : Nat) : Prop :=
  (historyFor db cid).length = n
  ∧ ∃ c, findCandidate db cid = some c
      ∧ (historyFor db cid).getLast?.map StatusHistoryRow.new_status =
          some c.status

/-- The `NotificationLog` row a dispatch attempt leaves behind, as a
function of whether the send path raised. -/
def notificationLogOf (sendRaises : Option String) (cid hid : Nat) :
    NotificationLogRow :=
  match sendRaises with
  | none => { candidate_id := cid, status_change_id := hid,
              notification_type := "status_update", success := true,
              error_message := "" }
  | some msg => { candidate_id := cid, status_change_id := hid,
                  notification_type := "status_update", success := false,
                  error_message := msg }

/-! ## Helper lemmas -/

theorem pyStartswith_iff {α : Type} [DecidableEq α] (pre l : List α) :
    pyStartswith pre l = true ↔ ∃ t, l = pre ++ t := by
  induction pre generalizing l with
  | nil => simp [pyStartswith]
  | cons x xs ih =>
    cases l with
    | nil => simp [pyStartswith]
    | cons y ys =>
      simp only [pyStartswith, Bool.and_eq_true, decide_eq_true_eq, ih]
      constructor
      · rintro ⟨rfl, t, rfl⟩; exact ⟨t, rfl⟩
      · rintro ⟨t, h⟩
        injection h with h1 h2
        exact ⟨h1.symm, t, h2⟩

theorem bytes_startswith_iff (pre l : List Nat) :
    bytes_startswith pre l = true ↔ ∃ t, l = pre ++ t :=
  pyStartswith_iff pre l

theorem bytes_startswith_take {pre l : List Nat} {n : Nat}
    (hlen : pre.length ≤ n) (h : bytes_startswith pre l = true) :
    bytes_startswith pre (l.take n) = true := by
  rw [bytes_startswith_iff] at h ⊢
  obtain ⟨t, rfl⟩ := h
  refine ⟨t.take (n - pre.length), ?_⟩
  rw [List.take_append_eq_append_take, List.take_of_length_le hlen]

theorem bytes_startswith_of_take {pre l : List Nat} {n : Nat}
    (h : bytes_startswith pre (l.take n) = true) :
    bytes_startswith pre l = true := by
  rw [bytes_startswith_iff] at h ⊢
  obtain ⟨t, ht⟩ := h
  exact ⟨t ++ l.drop n, by rw [← List.append_assoc, ← ht, List.take_append_drop]⟩

theorem splitDot_ne_nil (cs : List Char) : splitDot cs ≠ [] := by
  cases cs with
  | nil => simp [splitDot]
  | cons x xs =>
    simp only [splitDot]
    split <;> split <;> simp

theorem find_replace (l : List Candidate) (cid : Nat) (c c' : Candidate)
    (hf : l.find? (fun x => x.id == cid) = some c) (hid : c'.id = c.id) :
    (l.map fun x => if x.id = c'.id then c' else x).find?
      (fun x => x.id == cid) = some c' := by
  have hcid : c.id = cid := by
    have := List.find?_some hf
    simpa using this
  induction l with
  | nil => cases hf
  | cons a l ih =>
    by_cases ha : a.id = cid
    · rw [List.find?_cons_of_pos _ (by simpa using ha)] at hf
      have : a = c := by simpa using hf
      subst this
      simp only [List.map_cons, if_pos (by omega : a.id = c'.id)]
      exact List.find?_cons_of_pos _ (by simpa using (hid.trans hcid))
    · rw [List.find?_cons_of_neg _ (by simpa using ha)] at hf
      simp only [List.map_cons, if_neg (by omega : ¬ a.id = c'.id)]
      rw [List.find?_cons_of_neg _ (by simpa using ha)]
      exact ih hf

theorem find?_append_right {A : Type} (l1 l2 : List A) (p : A → Bool)
    (h : ∀ a ∈ l1, p a = false) : (l1 ++ l2).find? p = l2.find? p := by
  induction l1 with
  | nil => rfl
  | cons a l ih =>
    rw [List.cons_append, List.find?_cons_of_neg _ (by simp [h a (by simp)])]
    exact ih (fun a ha => h a (by simp [ha]))

/-- A same-status request is rejected by `validate_status` and leaves the
database untouched. -/
theorem admin_same_status (sendRaises : Option String) (db : Db) (cid : Nat)
    (c : Candidate) (req : StatusUpdateRequest)
    (hfind : findCandidate db cid = some c)
    (hsame : req.status = c.status) :
    admin_status_update sendRaises db cid req = (.validationFailed, db) := by
  simp [admin_status_update, hfind, status_update_serializer_valid,
    validate_status, hsame]

/-- What one successful patch does to the response, the candidate row,
the history table and the notification table, for any send outcome. -/
theorem admin_step (sendRaises : Option String) (db : Db)
    (cid : Nat) (c : Candidate) (req : StatusUpdateRequest)
    (hfind : findCandidate db cid = some c)
    (hdiff : ¬ req.status = c.status)
    (hcom : req.comments.length ≤ 1000)
    (hcb : req.changed_by.length ≤ 255) :
    (admin_status_update sendRaises db cid req).1 =
        .ok c.id (some c.status) req.status
    ∧ findCandidate (admin_status_update sendRaises db cid req).2 cid =
        some { c with status := req.status }
    ∧ (admin_status_update sendRaises db cid req).2.history =
        db.history ++
          [{ id := db.nextHistoryId, candidate_id := c.id,
             previous_status := some c.status, new_status := req.status,
             comments := req.comments, changed_by := req.changed_by }]
    ∧ historyFor (admin_status_update sendRaises db cid req).2 cid =
        historyFor db cid ++
          [{ id := db.nextHistoryId, candidate_id := c.id,
             previous_status := some c.status, new_status := req.status,
             comments := req.comments, changed_by := req.changed_by }]
    ∧ (admin_status_update sendRaises db cid req).2.notifications =
        db.notifications ++
          [notificationLogOf sendRaises c.id db.nextHistoryId] := by
  have hcid : c.id = cid := by
    have := List.find?_some hfind
    simpa using this
  simp only [admin_status_update, hfind]
  rw [if_neg (by simp [status_update_serializer_valid, validate_status,
    hcom, hcb, Ne.symm hdiff])]
  refine ⟨rfl, ?_, ?_, ?_, ?_⟩
  · cases sendRaises <;>
      exact find_replace _ _ _ _ hfind rfl
  · cases sendRaises <;> rfl
  · cases sendRaises <;>
      simp [historyFor, update_status, saveCandidate,
        send_status_update_notification, List.filter_append, hcid]
  · cases sendRaises <;> rfl

/-- One patch request preserves the history-ledger invariant, growing
the count exactly on success. -/
theorem admin_update_ledger (sendRaises : Option String) (db : Db)
    (cid : Nat) (req : StatusUpdateRequest) (n : Nat)
    (h : historyLedgerPost db cid n) :
    historyLedgerPost (admin_status_update sendRaises db cid req).2 cid
      (n + (match (admin_status_update sendRaises db cid req).1 with
            | .ok _ _ _ => 1 | _ => 0)) := by
  unfold historyLedgerPost at h ⊢
  obtain ⟨hlen, c, hfind, hlast⟩ := h
  by_cases hvalid : status_update_serializer_valid c req = true
  case neg =>
    rw [show admin_status_update sendRaises db cid req =
        (.validationFailed, db) by
      simp [admin_status_update, hfind, hvalid]]
    exact ⟨hlen, c, hfind, hlast⟩
  case pos =>
    rw [status_update_serializer_valid, Bool.and_eq_true,
      Bool.and_eq_true] at hvalid
    obtain ⟨⟨hcom, hcb⟩, hst⟩ := hvalid
    have hdiff : ¬ req.status = c.status := by
      simp only [validate_status, decide_eq_true_eq] at hst
      exact fun he => hst he.symm
    obtain ⟨hout, hfind2, -, hhist, -⟩ :=
      admin_step sendRaises db cid c req hfind hdiff
        (by simpa using hcom) (by simpa using hcb)
    rw [hout]
    refine ⟨?_, { c with status := req.status }, hfind2, ?_⟩
    · rw [hhist]
      simp [hlen]
    · rw [hhist]
      simp

theorem runTransitions_ledger (cid : Nat)
    (reqs : List (Option String × StatusUpdateRequest)) :
    ∀ db n, historyLedgerPost db cid n →
      historyLedgerPost (runTransitions cid db reqs).1 cid
        (n + (runTransitions cid db reqs).2) := by
  induction reqs with
  | nil =>
    intro db n h
    simpa [runTransitions] using h
  | cons p rest ih =>
    intro db n h
    obtain ⟨sr, req⟩ := p
    have step := admin_update_ledger sr db cid req n h
    have hrec := ih _ _ step
    simp only [runTransitions]
    rw [← Nat.add_assoc]
    exact hrec

/-- Appending a fresh candidate and one history row for it to a database
that mentions neither establishes the ledger invariant with count 1. -/
theorem historyLedgerPost_one (db' : Db) (N : Nat) (old : Db)
    (cand : Candidate) (row : StatusHistoryRow)
    (hc : db'.candidates = old.candidates ++ [cand])
    (hh : db'.history = old.history ++ [row])
    (hcand : ∀ c ∈ old.candidates, c.id ≠ N)
    (hhist : ∀ h ∈ old.history, h.candidate_id ≠ N)
    (hid : cand.id = N) (hrow : row.candidate_id = N)
    (hst : row.new_status = cand.status) :
    historyLedgerPost db' N 1 := by
  have hfil : historyFor db' N = [row] := by
    simp only [historyFor, hh, List.filter_append]
    rw [List.filter_eq_nil_iff.mpr (fun a ha => by simpa using hhist a ha)]
    simp [hrow]
  unfold historyLedgerPost
  constructor
  · rw [hfil]
    rfl
  · refine ⟨cand, ?_, ?_⟩
    · simp only [findCandidate, hc]
      rw [find?_append_right _ _ _ (fun a ha => by simpa using hcand a ha)]
      simp [List.find?, hid]
    · rw [hfil]
      simp [hst]

theorem historyLedgerPost_congr {db : Db} {cid n m : Nat} (h : n = m)
    (hp : historyLedgerPost db cid n) : historyLedgerPost db cid m :=
  h ▸ hp

/-- A successful registration leaves exactly one history row for the new
candidate, whose `new_status` is the candidate's SUBMITTED status. -/
theorem register_created_ledger (today : SimpleDate) (db db1 : Db)
    (input : RegistrationInput) (cid : Nat)
    (hreg : register today db input = (.created cid, db1))
    (hcand : ∀ c ∈ db.candidates, c.id ≠ db.nextCandidateId)
    (hhist : ∀ h ∈ db.history, h.candidate_id ≠ db.nextCandidateId) :
    historyLedgerPost db1 cid 1 := by
  simp only [register] at hreg
  split at hreg
  · simp at hreg
  · split at hreg
    · simp at hreg
    · rw [Prod.mk.injEq] at hreg
      obtain ⟨hcid, hdb1⟩ := hreg
      injection hcid with hcid
      subst hcid
      subst hdb1
      exact historyLedgerPost_one _ _ db _ _ rfl rfl hcand hhist rfl rfl rfl

/-- `FileExtensionValidator(['pdf', 'docx'])` passing pins the
lower-cased suffix after the last dot to `pdf` or `docx`. -/
theorem django_ext_mem (name : String)
    (h : django_ext_validator ["pdf", "docx"] name = true) :
    extension_after_last_dot name = "pdf"
    ∨ extension_after_last_dot name = "docx" := by
  simp only [django_ext_validator, django_extension] at h
  split at h
  · rename_i hcond
    unfold extension_after_last_dot
    rw [if_pos hcond.1]
    simpa using h
  · simp at h

/-! ## Claim theorems -/

/-- C4: for every uploaded file whose claimed extension — the lower-cased
filename's suffix after the last dot, exactly as `validate_resume_file`
computes it — is `pdf`, the validator accepts only content opening with
`%PDF`: a `pdf`-named file whose first bytes are not `%PDF` is always
rejected (by the MIME-sniff layer, whichever family the content
resembles), and a `pdf`-named file whose first bytes are `%PDF` and
whose size is within the 5 MiB limit passes validation. -/
theorem pdf_extension_signature_agreement (f : UploadedFile)
    (hext : file_extension_of (pyLower f.name) = "pdf") :
    (bytes_startswith PDF_MAGIC f.content = false →
      isAccepted (validate_resume_file f) = false)
    ∧ (bytes_startswith PDF_MAGIC f.content = true →
        f.size ≤ MAX_FILE_SIZE →
        isAccepted (validate_resume_file f) = true) := by
  have hname : ¬ f.name = "" := by
    intro he
    rw [he] at hext
    revert hext
    decide
  have hfn : ¬ pyLower f.name = "" := by
    intro he
    rw [he] at hext
    revert hext
    decide
  constructor
  · intro hpdf
    have h1024 : bytes_startswith PDF_MAGIC (f.content.take 1024) = false := by
      cases hb : bytes_startswith PDF_MAGIC (f.content.take 1024) with
      | false => rfl
      | true => rw [bytes_startswith_of_take hb] at hpdf; cases hpdf
    by_cases hsz : MAX_FILE_SIZE < f.size
    · simp [validate_resume_file, hname, hsz, isAccepted]
    · cases hz : bytes_startswith ZIP_MAGIC (f.content.take 1024) <;>
      cases hd : bytes_startswith DOC_MAGIC (f.content.take 1024) <;>
      simp [validate_resume_file, UploadedFile.seek, UploadedFile.read,
        magic_from_buffer, h1024, hz, hd, hext, hname, hfn, hsz,
        isAccepted, ALLOWED_MIME_TYPES, List.lookup]
  · intro hpdf hsize
    have h1024 : bytes_startswith PDF_MAGIC (f.content.take 1024) = true :=
      bytes_startswith_take (by decide) hpdf
    have h8 : bytes_startswith PDF_MAGIC (f.content.take 8) = true :=
      bytes_startswith_take (by decide) hpdf
    simp [validate_resume_file, UploadedFile.seek, UploadedFile.read,
      magic_from_buffer, h1024, h8, hext, hname, hfn,
      Nat.not_lt.mpr hsize, isAccepted, ALLOWED_MIME_TYPES, List.lookup,
      signature_valid_for, FILE_SIGNATURES, List.find?]

/-- C4 witness: the `%PDF`-prefixed `x.pdf` of 50 bytes passes; the
ZIP-header `x.pdf` is rejected. -/
theorem pdf_extension_signature_agreement_witness :
    (file_extension_of (pyLower zipPdfFile.name) = "pdf"
      ∧ isAccepted (validate_resume_file zipPdfFile) = false)
    ∧ (file_extension_of (pyLower pdfFile.name) = "pdf"
      ∧ pdfFile.size ≤ MAX_FILE_SIZE
      ∧ isAccepted (validate_resume_file pdfFile) = true) :=
  ⟨⟨by decide, (pdf_extension_signature_agreement zipPdfFile
        (by decide)).1 (by decide)⟩,
   ⟨by decide, by decide, (pdf_extension_signature_agreement pdfFile
        (by decide)).2 (by decide) (by decide)⟩⟩

/-- C5: the validator accepts only sizes of at most `5 * 1024 * 1024`
bytes; a file of exactly that size is not rejected by the size check,
and a file one byte over it is rejected with the size-limit error
(provided it clears the preceding check-1 gate, i.e. has a filename —
an absent/empty-named file is rejected earlier with the check-1
reason, see the ordering property). -/
theorem file_size_boundary (f : UploadedFile) :
    (isAccepted (validate_resume_file f) = true → f.size ≤ MAX_FILE_SIZE)
    ∧ (f.size = MAX_FILE_SIZE →
        validate_resume_file f ≠ .error .sizeExceeded)
    ∧ (f.size = MAX_FILE_SIZE + 1 → f.name ≠ "" →
        validate_resume_file f = .error .sizeExceeded) := by
  refine ⟨?_, ?_, ?_⟩
  · intro hAcc
    by_contra hgt
    rw [Nat.not_le] at hgt
    by_cases hn : f.name = ""
    · simp [validate_resume_file, hn, isAccepted] at hAcc
    · simp [validate_resume_file, hn, hgt, isAccepted] at hAcc
  · intro hsz heq
    simp only [validate_resume_file, UploadedFile.seek,
      UploadedFile.read] at heq
    repeat' split at heq
    all_goals simp_all
  · intro hsz hname
    unfold validate_resume_file
    rw [if_neg hname, if_pos (by omega : MAX_FILE_SIZE < f.size)]

/-- C5 witness: a 5 MiB PDF passes outright; a 5 MiB + 1 PDF is
rejected by the size check. -/
theorem file_size_boundary_witness :
    (isAccepted (validate_resume_file maxSizeFile) = true
      ∧ maxSizeFile.size ≤ MAX_FILE_SIZE)
    ∧ (maxSizeFile.size = MAX_FILE_SIZE
      ∧ validate_resume_file maxSizeFile ≠ .error .sizeExceeded)
    ∧ (overSizeFile.size = MAX_FILE_SIZE + 1 ∧ overSizeFile.name ≠ ""
      ∧ validate_resume_file overSizeFile = .error .sizeExceeded) :=
  ⟨⟨by decide, (file_size_boundary maxSizeFile).1 (by decide)⟩,
   ⟨rfl, (file_size_boundary maxSizeFile).2.1 rfl⟩,
   ⟨rfl, by decide, (file_size_boundary overSizeFile).2.2 rfl (by decide)⟩⟩

/-- C6: a present file with an empty filename is rejected by check 1
(Django's `not file` is `not bool(file.name)`, so the empty name trips
the "No file provided." gate) before the size check runs: whatever its
size — in particular over 5 MiB — the rejection reason is the check-1
missing-file/filename reason, never the size reason. -/
theorem empty_filename_rejected_before_size (f : UploadedFile)
    (h : f.name = "") :
    validate_resume_file f = .error .noFile
    ∧ validate_resume_file f ≠ .error .sizeExceeded := by
  have h1 : validate_resume_file f = .error .noFile := by
    simp [validate_resume_file, h]
  refine ⟨h1, ?_⟩
  rw [h1]
  simp

/-- C6 witness: the empty-named file over 5 MiB gets the check-1
reason, not the size reason. -/
theorem empty_filename_rejected_before_size_witness :
    unnamedBigFile.name = "" ∧ MAX_FILE_SIZE < unnamedBigFile.size
    ∧ validate_resume_file unnamedBigFile = .error .noFile
    ∧ validate_resume_file unnamedBigFile ≠ .error .sizeExceeded :=
  ⟨rfl, by decide,
   (empty_filename_rejected_before_size unnamedBigFile rfl).1,
   (empty_filename_rejected_before_size unnamedBigFile rfl).2⟩

/-- C9: whenever `validate_resume_file` accepts, the returned file's
stream position is 0 — the validator reads 1 KiB for the MIME sniff and
8 bytes for the signature but always seeks back to the start. -/
theorem validator_resets_stream_position (f r : UploadedFile)
    (h : validate_resume_file f = .ok r) : r.pos = 0 := by
  simp only [validate_resume_file, UploadedFile.seek,
    UploadedFile.read] at h
  repeat' split at h
  all_goals (simp at h; try (subst h; rfl))

/-- C9 witness: the accepted 50-byte PDF comes back at position 0. -/
theorem validator_resets_stream_position_witness :
    validate_resume_file pdfFile = .ok pdfFile ∧ pdfFile.pos = 0 :=
  ⟨by rfl, validator_resets_stream_position pdfFile pdfFile (by rfl)⟩

/-- C7: a registration whose date of birth gives an age under 16 never
creates a candidate and leaves the database untouched (the serializer
either rejects outright, or `Candidate.clean` raises inside the atomic
`save()` and the view answers 500 with everything rolled back); with
all other fields valid, an age of exactly 16 is accepted. -/
theorem age_gate_boundary :
    (∀ today db input, calcAge today input.date_of_birth < 16 →
        (register today db input).1.isCreated = false
        ∧ (register today db input).2 = db)
    ∧ (∀ today db input, serializer_valid today db input = true →
        calcAge today input.date_of_birth = 16 →
        (register today db input).1.isCreated = true) := by
  constructor
  · intro t db inp h
    by_cases hv : serializer_valid t db inp = true
    · simp [register, hv, candidate_clean_ok, h, RegOutcome.isCreated]
    · simp [register, hv, RegOutcome.isCreated]
  · intro t db inp hv hage
    simp [register, hv, candidate_clean_ok, hage, RegOutcome.isCreated]

/-- C7 witness: age 11 is rejected with nothing persisted; age exactly
16 registers. -/
theorem age_gate_boundary_witness :
    (calcAge t0 youngInput.date_of_birth < 16
      ∧ (register t0 emptyDb youngInput).1.isCreated = false
      ∧ (register t0 emptyDb youngInput).2 = emptyDb)
    ∧ (serializer_valid t0 emptyDb input16 = true
      ∧ calcAge t0 input16.date_of_birth = 16
      ∧ (register t0 emptyDb input16).1.isCreated = true) :=
  ⟨⟨by decide, (age_gate_boundary.1 t0 emptyDb youngInput (by decide)).1,
    (age_gate_boundary.1 t0 emptyDb youngInput (by decide)).2⟩,
   ⟨by decide, by decide,
    age_gate_boundary.2 t0 emptyDb input16 (by decide) (by decide)⟩⟩

/-- C8: the legacy `x.doc` upload with compound-document content clears
all of `validate_resume_file` (its extension check included), yet the
registration serializer's `FileExtensionValidator(['pdf', 'docx'])`
rejects it, so registration as a whole turns it away; consequently every
successfully registered candidate stores a resume whose lower-cased
suffix after the last dot is `pdf` or `docx`. -/
theorem doc_validator_vs_registration_schema :
    isAccepted (validate_resume_file docFile) = true
    ∧ resume_field_ok docFile = false
    ∧ (register t0 emptyDb docInput).1 = .validationError
    ∧ ∀ today db input, (register today db input).1.isCreated = true →
        ((extension_after_last_dot input.resume.name = "pdf"
          ∨ extension_after_last_dot input.resume.name = "docx")
         ∧ ∃ c ∈ (register today db input).2.candidates,
             c.resume_name = input.resume.name) := by
  refine ⟨by decide, by decide, by decide, ?_⟩
  intro t db inp h
  by_cases hv : serializer_valid t db inp = true
  · by_cases hc : candidate_clean_ok t inp.date_of_birth = true
    · have hres : resume_field_ok inp.resume = true := by
        simp only [serializer_valid, Bool.and_eq_true] at hv
        exact hv.1.2
      have hdj : django_ext_validator ["pdf", "docx"] inp.resume.name
          = true := by
        simp only [resume_field_ok, Bool.and_eq_true] at hres
        exact hres.1
      refine ⟨django_ext_mem _ hdj, ?_⟩
      refine ⟨{ id := db.nextCandidateId, full_name := pyStrip inp.full_name,
                email := pyLower (pyStrip inp.email),
                phone_number := pyStrip inp.phone_number,
                date_of_birth := inp.date_of_birth,
                years_of_experience := inp.years_of_experience,
                department := inp.department,
                resume_name := inp.resume.name,
                status := .SUBMITTED }, ?_, rfl⟩
      simp [register, hv, hc]
    · simp [register, hv, hc, RegOutcome.isCreated] at h
  · simp [register, hv, RegOutcome.isCreated] at h

/-- C8 witness: instantiating the universal part at the successful PDF
registration. -/
theorem doc_validator_vs_registration_schema_witness :
    (register t0 emptyDb input16).1.isCreated = true
    ∧ ((extension_after_last_dot input16.resume.name = "pdf"
        ∨ extension_after_last_dot input16.resume.name = "docx")
       ∧ ∃ c ∈ (register t0 emptyDb input16).2.candidates,
           c.resume_name = input16.resume.name) :=
  ⟨by decide,
   doc_validator_vs_registration_schema.2.2.2 t0 emptyDb input16 (by decide)⟩

/-- C10: `validate_file_content_safety` is not part of the registration
path — the resume field runs exactly the extension validator and
`validate_resume_file`, and any payload passing the serializer and the
age clean registers; concretely, the 50-byte PDF that the content-safety
check would reject as too small registers successfully. -/
theorem content_safety_not_on_registration_path :
    (∀ f, resume_field_ok f =
        (django_ext_validator ["pdf", "docx"] f.name &&
          isAccepted (validate_resume_file f)))
    ∧ (∀ today db input, serializer_valid today db input = true →
        candidate_clean_ok today input.date_of_birth = true →
        (register today db input).1 = .created db.nextCandidateId)
    ∧ validate_file_content_safety pdfFile = .error .tooSmall
    ∧ pdfFile.size < 100
    ∧ (register t0 emptyDb input16).1 = .created 0 := by
  refine ⟨fun f => rfl, ?_, by rfl, by decide, by decide⟩
  intro t db inp hv hc
  simp [register, hv, hc]

/-- C10 witness: instantiating the universal part at the small-PDF
registration payload. -/
theorem content_safety_not_on_registration_path_witness :
    serializer_valid t0 emptyDb input16 = true
    ∧ candidate_clean_ok t0 input16.date_of_birth = true
    ∧ (register t0 emptyDb input16).1 = .created emptyDb.nextCandidateId :=
  ⟨by decide, by decide,
   content_safety_not_on_registration_path.2.1 t0 emptyDb input16
     (by decide) (by decide)⟩

/-- C1: when the notification send path raises, the transition still
completes — the patch returns success, the candidate row holds the
requested status, the new `StatusHistory` row is persisted, and a
`NotificationLog` row referencing that history entry is written with
`success = false` and the exception's message as `error_message`. -/
theorem notification_failure_keeps_transition (msg : String) (db : Db)
    (cid : Nat) (c : Candidate) (req : StatusUpdateRequest)
    (hfind : findCandidate db cid = some c)
    (hdiff : ¬ req.status = c.status)
    (hcom : req.comments.length ≤ 1000)
    (hcb : req.changed_by.length ≤ 255) :
    transitionWithFailedSendPost msg db cid c req := by
  obtain ⟨h1, h2, h3, -, h5⟩ :=
    admin_step (some msg) db cid c req hfind hdiff hcom hcb
  exact ⟨h1, h2, h3, h5⟩

/-- C1 witness: a raising send on the SUBMITTED → UNDER_REVIEW
transition of `cand0`. -/
theorem notification_failure_keeps_transition_witness :
    findCandidate db0 0 = some cand0
    ∧ ¬ reqUnderReview.status = cand0.status
    ∧ reqUnderReview.comments.length ≤ 1000
    ∧ reqUnderReview.changed_by.length ≤ 255
    ∧ transitionWithFailedSendPost "Mock notification failure" db0 0
        cand0 reqUnderReview :=
  ⟨by decide, by decide, by decide, by decide,
   notification_failure_keeps_transition "Mock notification failure" db0 0
     cand0 reqUnderReview (by decide) (by decide) (by decide) (by decide)⟩

/-- C2: a transition request to the candidate's current status is
rejected as a validation (conflict) error on the status field and the
database is returned unchanged — status untouched, no history row, no
notification attempt. -/
theorem same_status_transition_rejected (sendRaises : Option String)
    (db : Db) (cid : Nat) (c : Candidate) (req : StatusUpdateRequest)
    (hfind : findCandidate db cid = some c)
    (hsame : req.status = c.status) :
    admin_status_update sendRaises db cid req = (.validationFailed, db) :=
  admin_same_status sendRaises db cid c req hfind hsame

/-- C2 witness: asking `cand0` to move to SUBMITTED, its current
status. -/
theorem same_status_transition_rejected_witness :
    findCandidate db0 0 = some cand0
    ∧ reqSameStatus.status = cand0.status
    ∧ admin_status_update none db0 0 reqSameStatus =
        (.validationFailed, db0) :=
  ⟨by decide, by decide,
   same_status_transition_rejected none db0 0 cand0 reqSameStatus
     (by decide) (by decide)⟩

/-- C3: starting from a successful registration into a database with no
stale rows under the fresh id, any sequence of transition requests
leaves exactly `successes + 1` history rows for the candidate (the
initial system-authored SUBMITTED entry plus one per successful
transition), and the newest row's `new_status` equals the candidate's
current status. -/
theorem history_rows_count_after_transitions (today : SimpleDate)
    (db db1 : Db) (input : RegistrationInput) (cid : Nat)
    (hreg : register today db input = (.created cid, db1))
    (hcand : ∀ c ∈ db.candidates, c.id ≠ db.nextCandidateId)
    (hhist : ∀ h ∈ db.history, h.candidate_id ≠ db.nextCandidateId)
    (reqs : List (Option String × StatusUpdateRequest)) :
    historyLedgerPost (runTransitions cid db1 reqs).1 cid
      ((runTransitions cid db1 reqs).2 + 1) :=
  historyLedgerPost_congr (Nat.add_comm 1 _)
    (runTransitions_ledger cid reqs db1 1
      (register_created_ledger today db db1 input cid hreg hcand hhist))

/-- C3 witness: registering into the empty database and then running one
failing-send transition, one conflicting one and one further success. -/
theorem history_rows_count_after_transitions_witness :
    register t0 emptyDb input16 = (.created 0, (register t0 emptyDb input16).2)
    ∧ historyLedgerPost
        (runTransitions 0 (register t0 emptyDb input16).2
          [(some "boom", reqUnderReview), (none, reqUnderReview),
           (none, reqSameStatus)]).1 0
        ((runTransitions 0 (register t0 emptyDb input16).2
          [(some "boom", reqUnderReview), (none, reqUnderReview),
           (none, reqSameStatus)]).2 + 1) :=
  ⟨by constructor,
   history_rows_count_after_transitions t0 emptyDb
     (register t0 emptyDb input16).2 input16 0 (by constructor)
     (by simp [emptyDb]) (by simp [emptyDb])
     [(some "boom", reqUnderReview), (none, reqUnderReview),
      (none, reqSameStatus)]⟩

end JobApp
